import Mathlib

/-!
Shallow embedding of the transformation and run-recording logic of the
`etl-lab2` repository (files `src/flows/etl_simple.py` and
`src/flows/etl_lab2_prefect.py`).

Tables are lists of typed rows (a row is a record of nullable column values,
`Option`-valued, mirroring pandas NaN/None).  Numeric scores are modelled as
rationals; the float NaN that pandas produces for a mean over zero values is
modelled as `none` of `Option ℚ`.  Python's `round(x, 1)` uses banker's
rounding on floats; it is modelled here with the integer rounding function,
which can differ only at exact ties — no property proved below depends on the
tie-breaking direction.  Join keys are modelled as `Option Key`; following
pandas `merge` semantics, a null key on the left matches a null key on the
right (option equality), and a left row without any match is kept with
all-null right columns (`how='left'`).
-/

namespace EtlLab2

abbrev Key := Int

/-- Model of Python `str(x)` on a nullable string cell: pandas missing values
print as the literal string `"nan"`. -/
def pyStr (o : Option String) : String :=
  match o with
  | none => "nan"
  | some s => s

/-- Model of Python `str.lower()` restricted to the characters the pipeline
manipulates: ASCII letters plus the acute-accented vowels appearing in the
accent-substitution table of `generar_correo`.  Other characters are
unchanged. -/
def pyLowerChar (c : Char) : Char :=
  if c = 'Á' then 'á'
  else if c = 'É' then 'é'
  else if c = 'Í' then 'í'
  else if c = 'Ó' then 'ó'
  else if c = 'Ú' then 'ú'
  else if c = 'Ñ' then 'ñ'
  else c.toLower

def pyLower (s : String) : String :=
  String.mk (s.data.map pyLowerChar)

/-- Model of Python `str.strip()`: remove leading and trailing whitespace. -/
def pyStrip (s : String) : String :=
  String.mk (((s.data.dropWhile Char.isWhitespace).reverse.dropWhile
      Char.isWhitespace).reverse)

/-- The accent substitution table of `generar_correo`:
`.replace('á','a').replace('é','e').replace('í','i').replace('ó','o').replace('ú','u')`. -/
def deaccentChar (c : Char) : Char :=
  if c = 'á' then 'a'
  else if c = 'é' then 'e'
  else if c = 'í' then 'i'
  else if c = 'ó' then 'o'
  else if c = 'ú' then 'u'
  else c

/-- The full name-cleaning pipeline used inside `generar_correo`
(both variants, `etl_simple.py` lines 114-117 and `etl_lab2_prefect.py`
lines 147-151): `str(x).lower().strip()` followed by `.replace(' ', '')` and
the five accent substitutions. -/
def limpiar (s : String) : String :=
  String.mk ((((pyStrip (pyLower s)).data.filter
      (fun c => ¬ (c = ' '))).map deaccentChar))

/-- Roster row (`alumnos.csv` after parsing): all cells nullable. -/
structure AlumnoRow where
  id_alumno : Option Key
  nombre : Option String
  apellido : Option String
  grado : Option String
  correo : Option String
  fecha_nacimiento : Option String
deriving DecidableEq

/-- Grade row (`calificaciones.json` after parsing). -/
structure CalifRow where
  id_alumno : Option Key
  asignatura : Option String
  nota : Option ℚ
  periodo : Option String
deriving DecidableEq

/-- Enrollment row (`matriculas.xml` after parsing). -/
structure MatriculaRow where
  id_alumno : Option Key
  anio : Option String
  estado : Option String
  jornada : Option String
deriving DecidableEq

/-- `generar_correo` (`etl_simple.py` lines 112-119, `etl_lab2_prefect.py`
lines 144-153): when the address cell is NaN or the empty string, synthesize
`cleaned(nombre) ++ "." ++ cleaned(apellido) ++ "@colegio.edu"`; otherwise
return the existing address unchanged. -/
def generar_correo (row : AlumnoRow) : Option String :=
  if row.correo = none ∨ row.correo = some "" then
    some (limpiar (pyStr row.nombre) ++ "." ++ limpiar (pyStr row.apellido)
      ++ "@colegio.edu")
  else
    row.correo

/-- Helper for `drop_duplicates(subset=['id_alumno'], keep='first')`:
pandas treats NaN keys as equal to each other for deduplication, which the
option equality on `Option Key` reproduces. -/
def dropDupAux (seen : List (Option Key)) : List AlumnoRow → List AlumnoRow
  | [] => []
  | a :: rest =>
    if a.id_alumno ∈ seen then dropDupAux seen rest
    else a :: dropDupAux (a.id_alumno :: seen) rest

/-- `df_al.drop_duplicates(subset=['id_alumno'], keep='first')`
(`etl_simple.py` line 106, `etl_lab2_prefect.py` line 137). -/
def dropDuplicatesAl (l : List AlumnoRow) : List AlumnoRow :=
  dropDupAux [] l

/-- Rounding a rational to one decimal place, modelling
`round(float(nota), 1)`. -/
def round1 (x : ℚ) : ℚ := ((round (10 * x) : ℤ) : ℚ) / 10

/-- `normalizar_nota` (`etl_simple.py` lines 132-138, `etl_lab2_prefect.py`
lines 174-183), value part: NaN stays NaN, otherwise
`max(0, min(5, round(float(nota), 1)))`. -/
def normalizar_nota (q : Option ℚ) : Option ℚ :=
  match q with
  | none => none
  | some x => some (max 0 (min 5 (round1 x)))

/-- The out-of-range test of `normalizar_nota`: the counter
`calificaciones_fuera_rango` is incremented exactly when the (non-null) score
satisfies `nota < 0 or nota > 5`. -/
def fueraRango (q : Option ℚ) : Bool :=
  match q with
  | none => false
  | some x => decide (x < 0 ∨ 5 < x)

/-- `df_ca['nota'] = df_ca['nota'].apply(normalizar_nota)` applied row-wise. -/
def cleanCalif (c : CalifRow) : CalifRow :=
  { c with nota := normalizar_nota c.nota }

/-- Deduplicated roster with `generar_correo` applied
(`df_al['correo'] = df_al.apply(generar_correo, axis=1)` after
`drop_duplicates`). -/
def cleanAlumnos (l : List AlumnoRow) : List AlumnoRow :=
  (dropDuplicatesAl l).map (fun r => { r with correo := generar_correo r })

/-- One denormalized output row: a grade row joined with its (optional)
roster row and (optional) enrollment row. -/
structure FactRow where
  id_alumno : Option Key
  nombre : Option String
  apellido : Option String
  grado : Option String
  correo : Option String
  fecha_nacimiento : Option String
  asignatura : Option String
  nota : Option ℚ
  periodo : Option String
  anio : Option String
  estado : Option String
  jornada : Option String
deriving DecidableEq

/-- Build the denormalized row from a grade row and the matched (or missing)
roster and enrollment rows; unmatched right sides contribute NaN columns,
as pandas `merge(how='left')` does. -/
def mkFact (c : CalifRow) (a : Option AlumnoRow) (m : Option MatriculaRow) :
    FactRow :=
  { id_alumno := c.id_alumno
    nombre := a.bind (fun x => x.nombre)
    apellido := a.bind (fun x => x.apellido)
    grado := a.bind (fun x => x.grado)
    correo := a.bind (fun x => x.correo)
    fecha_nacimiento := a.bind (fun x => x.fecha_nacimiento)
    asignatura := c.asignatura
    nota := c.nota
    periodo := c.periodo
    anio := m.bind (fun x => x.anio)
    estado := m.bind (fun x => x.estado)
    jornada := m.bind (fun x => x.jornada) }

/-- Second merge step for one intermediate row:
`df_temp.merge(df_ma, on='id_alumno', how='left')` restricted to the rows
generated from grade row `c` with roster match `a`.  Every enrollment row
whose key equals the grade row's key produces one output row; when none
matches, the row survives with null enrollment columns. -/
def joinMa (c : CalifRow) (a : Option AlumnoRow) (ma : List MatriculaRow) :
    List FactRow :=
  if (ma.filter (fun m => m.id_alumno = c.id_alumno)).isEmpty then
    [mkFact c a none]
  else
    (ma.filter (fun m => m.id_alumno = c.id_alumno)).map
      (fun m => mkFact c a (some m))

/-- Rows of the two-step left-join chain generated by one grade row:
first `df_ca.merge(df_al, on='id_alumno', how='left')`, then the merge with
the enrollment table. -/
def joinRow (c : CalifRow) (al : List AlumnoRow) (ma : List MatriculaRow) :
    List FactRow :=
  if (al.filter (fun a => a.id_alumno = c.id_alumno)).isEmpty then
    joinMa c none ma
  else
    (al.filter (fun a => a.id_alumno = c.id_alumno)).flatMap
      (fun a => joinMa c (some a) ma)

/-- The full two-step left-join chain
(`etl_simple.py` lines 160-164, `etl_lab2_prefect.py` lines 213-219):
grades LEFT JOIN roster ON key, then LEFT JOIN enrollments ON key.  Output
order follows pandas: left-row order, with right matches in right-row
order. -/
def mergeRows (ca : List CalifRow) (al : List AlumnoRow)
    (ma : List MatriculaRow) : List FactRow :=
  ca.flatMap (fun c => joinRow c al ma)

/-- `df_final[key].nunique()`: distinct non-null student keys of the fact
table (pandas `nunique` ignores NaN). -/
def totalAlumnosUnicos (facts : List FactRow) : Nat :=
  (facts.filterMap (fun f => f.id_alumno)).dedup.length

/-- `df_final['asignatura'].nunique()`. -/
def totalMateriasDiferentes (facts : List FactRow) : Nat :=
  (facts.filterMap (fun f => f.asignatura)).dedup.length

/-- `df_final[df_final['anio'].notna()][key].nunique()`: distinct non-null
student keys among fact rows with a non-null enrollment year. -/
def alumnosConMatricula (facts : List FactRow) : Nat :=
  ((facts.filter (fun f => f.anio.isSome)).filterMap
      (fun f => f.id_alumno)).dedup.length

/-- `df_final['nota'].mean()`: pandas skips NaN values and returns NaN
(modelled `none`) when no non-null value remains. -/
def promedioNotas (facts : List FactRow) : Option ℚ :=
  if (facts.filterMap (fun f => f.nota)).isEmpty then none
  else some ((facts.filterMap (fun f => f.nota)).sum
    / ((facts.filterMap (fun f => f.nota)).length : ℚ))

/-- The metrics and fact table produced by one successful transformation. -/
structure TransformResult where
  facts : List FactRow
  duplicados_eliminados : Nat
  correos_generados : Nat
  calificaciones_fuera_rango : Nat
  registros_validos : Nat
  registros_descartados : Nat
  alumnos_con_matricula : Nat
  total_alumnos_unicos : Nat
  total_materias_diferentes : Nat
  promedio_notas_general : Option ℚ
deriving DecidableEq

/-- `df_ca` after score normalization. -/
def cleanCalifs (ca : List CalifRow) : List CalifRow :=
  ca.map cleanCalif

/-- `valid_al = df_al[df_al[key].notna()]` (`etl_lab2_prefect.py` line 202),
applied to the cleaned roster. -/
def validAl (al : List AlumnoRow) : List AlumnoRow :=
  (cleanAlumnos al).filter (fun a => a.id_alumno.isSome)

/-- `valid_ca = df_ca[df_ca[key].notna()]` (line 203), applied to the
normalized grade table. -/
def validCa (ca : List CalifRow) : List CalifRow :=
  (cleanCalifs ca).filter (fun c => c.id_alumno.isSome)

/-- `valid_ma = df_ma[df_ma[key].notna()]` (line 204). -/
def validMa (ma : List MatriculaRow) : List MatriculaRow :=
  ma.filter (fun m => m.id_alumno.isSome)

/-- The fact table of the Prefect variant (`df_final`, lines 213-219). -/
def factsPrefect (al : List AlumnoRow) (ca : List CalifRow)
    (ma : List MatriculaRow) : List FactRow :=
  mergeRows (validCa ca) (validAl al) (validMa ma)

/-- The fact table of the simple variant (`etl_simple.py` lines 160-164):
the same join chain but with no key filtering on any table. -/
def factsSimple (al : List AlumnoRow) (ca : List CalifRow)
    (ma : List MatriculaRow) : List FactRow :=
  mergeRows (cleanCalifs ca) (cleanAlumnos al) ma

/-- `correos_generados` as both variants compute it: NaN-address count of
the deduplicated roster minus the NaN-address count after synthesis
(`df_al['correo'].isna().sum()` before and after the `apply`).  Rows whose
address is the empty string are synthesized but not NaN, so they are
invisible to both counts. -/
def correosGenerados (al : List AlumnoRow) : Nat :=
  (dropDuplicatesAl al).countP (fun r => r.correo = none)
    - (cleanAlumnos al).countP (fun r => r.correo = none)

/-- `transform` of `etl_lab2_prefect.py` (lines 117-287): dedup the roster,
synthesize addresses, normalize scores, filter the three tables to rows with
a non-null key, run the two-step left-join chain, and compute the metrics.
`discarded_rows` is computed (line 234) from the post-dedup roster length.
The function is total: no branch raises. -/
def transformPrefect (df_al : List AlumnoRow) (df_ca : List CalifRow)
    (df_ma : List MatriculaRow) : TransformResult :=
  { facts := factsPrefect df_al df_ca df_ma
    duplicados_eliminados := df_al.length - (dropDuplicatesAl df_al).length
    correos_generados := correosGenerados df_al
    calificaciones_fuera_rango := df_ca.countP (fun c => fueraRango c.nota)
    registros_validos := (factsPrefect df_al df_ca df_ma).length
    registros_descartados :=
      ((cleanAlumnos df_al).length - (validAl df_al).length)
      + (df_ca.length - (validCa df_ca).length)
      + (df_ma.length - (validMa df_ma).length)
    alumnos_con_matricula := alumnosConMatricula (factsPrefect df_al df_ca df_ma)
    total_alumnos_unicos := totalAlumnosUnicos (factsPrefect df_al df_ca df_ma)
    total_materias_diferentes :=
      totalMateriasDiferentes (factsPrefect df_al df_ca df_ma)
    promedio_notas_general := promedioNotas (factsPrefect df_al df_ca df_ma) }

/-- `transform` of `etl_simple.py` (lines 93-219): same cleaning steps, but
no key filtering before the merges (`registros_descartados` is hard-coded to
`0`, lines 201-212), and a date-seeded random failure injection (lines
143-151) that aborts the run before the merges; the `inject` flag models
whether that injected `ValueError` fires, `none` models the raise. -/
def transformSimple (inject : Bool) (df_al : List AlumnoRow)
    (df_ca : List CalifRow) (df_ma : List MatriculaRow) :
    Option TransformResult :=
  if inject then none
  else
    some { facts := factsSimple df_al df_ca df_ma
           duplicados_eliminados :=
             df_al.length - (dropDuplicatesAl df_al).length
           correos_generados := correosGenerados df_al
           calificaciones_fuera_rango :=
             df_ca.countP (fun c => fueraRango c.nota)
           registros_validos := (factsSimple df_al df_ca df_ma).length
           registros_descartados := 0
           alumnos_con_matricula :=
             alumnosConMatricula (factsSimple df_al df_ca df_ma)
           total_alumnos_unicos :=
             totalAlumnosUnicos (factsSimple df_al df_ca df_ma)
           total_materias_diferentes :=
             totalMateriasDiferentes (factsSimple df_al df_ca df_ma)
           promedio_notas_general :=
             promedioNotas (factsSimple df_al df_ca df_ma) }

/-- The transformation result of either variant on three empty tables. -/
def emptyResult : TransformResult :=
  { facts := []
    duplicados_eliminados := 0
    correos_generados := 0
    calificaciones_fuera_rango := 0
    registros_validos := 0
    registros_descartados := 0
    alumnos_con_matricula := 0
    total_alumnos_unicos := 0
    total_materias_diferentes := 0
    promedio_notas_general := none }

/-- One row of the append-only `etl_monitor` audit table, as inserted by
`log_run` in both variants (timestamp and duration omitted: they carry no
decision logic). -/
structure RunLog where
  registros_leidos : Nat
  registros_validos : Nat
  registros_descartados : Nat
  alumnos_con_matricula : Nat
  total_alumnos_unicos : Nat
  total_materias_diferentes : Nat
  correos_generados : Nat
  promedio_notas_general : Option ℚ
  estado : String
  mensaje : String
deriving DecidableEq

/-- Python slicing `mensaje[:500]` performed inside `log_run` before the
insert. -/
def strTake (s : String) (n : Nat) : String :=
  String.mk (s.data.take n)

/-- The message of the intentional validation failure of `etl_simple.py`
line 149. -/
def mensajeValidacion : String :=
  "Validación de integridad de datos falló - datos inconsistentes detectados"

/-- The FAIL audit row written by `main` of `etl_simple.py` (lines 388-403):
every metric zero, `estado="FAIL"`, `mensaje=f"Error: {str(e)}"`, truncated
to 500 characters by `log_run`. -/
def failRunLogSimple (e : String) : RunLog :=
  { registros_leidos := 0
    registros_validos := 0
    registros_descartados := 0
    alumnos_con_matricula := 0
    total_alumnos_unicos := 0
    total_materias_diferentes := 0
    correos_generados := 0
    promedio_notas_general := some 0
    estado := "FAIL"
    mensaje := strTake ("Error: " ++ e) 500 }

/-- The OK audit row written by `main` of `etl_simple.py` on success
(lines 332-347). -/
def okRunLogSimple (leidos : Nat) (r : TransformResult) : RunLog :=
  { registros_leidos := leidos
    registros_validos := r.registros_validos
    registros_descartados := r.registros_descartados
    alumnos_con_matricula := r.alumnos_con_matricula
    total_alumnos_unicos := r.total_alumnos_unicos
    total_materias_diferentes := r.total_materias_diferentes
    correos_generados := r.correos_generados
    promedio_notas_general := r.promedio_notas_general
    estado := "OK"
    mensaje := strTake "ETL ejecutado exitosamente" 500 }

/-- The FAIL audit row written by `etl_flow` of `etl_lab2_prefect.py`
(line 449): `log_run` is called with three empty metric dicts, so every
`dict.get` falls back to zero; `estado="FAIL"`, `mensaje=str(e)` truncated to
500 characters. -/
def failRunLogPrefect (e : String) : RunLog :=
  { registros_leidos := 0
    registros_validos := 0
    registros_descartados := 0
    alumnos_con_matricula := 0
    total_alumnos_unicos := 0
    total_materias_diferentes := 0
    correos_generados := 0
    promedio_notas_general := some 0
    estado := "FAIL"
    mensaje := strTake e 500 }

/-- The OK audit row written by `etl_flow` on success (line 421). -/
def okRunLogPrefect (leidos : Nat) (r : TransformResult) : RunLog :=
  { registros_leidos := leidos
    registros_validos := r.registros_validos
    registros_descartados := r.registros_descartados
    alumnos_con_matricula := r.alumnos_con_matricula
    total_alumnos_unicos := r.total_alumnos_unicos
    total_materias_diferentes := r.total_materias_diferentes
    correos_generados := r.correos_generados
    promedio_notas_general := r.promedio_notas_general
    estado := "OK"
    mensaje := strTake "" 500 }

/-- `main` of `etl_simple.py` (lines 309-407).  The extract stage is the
external Source Adapter, passed as an `Except` (its error models the raised
exception); `inject` models the date-seeded failure injection inside
`transform`.  Result: the audit rows appended by the run, and the boolean
that `main` returns to its caller — note that every stage exception is
caught and turned into `return False`, never re-raised. -/
def mainSimple
    (ext : Except String (List AlumnoRow × List CalifRow × List MatriculaRow))
    (inject : Bool) : List RunLog × Bool :=
  match ext with
  | .error e => ([failRunLogSimple e], false)
  | .ok (al, ca, ma) =>
    match transformSimple inject al ca ma with
    | none => ([failRunLogSimple mensajeValidacion], false)
    | some r =>
      ([okRunLogSimple (al.length + ca.length + ma.length) r], true)

/-- `etl_flow` of `etl_lab2_prefect.py` (lines 397-451): on any stage
failure it writes the FAIL audit row and then re-raises the original
exception (`finally: raise`), so the second component is `.error e` exactly
when a stage failed. -/
def etlFlowPrefect
    (ext : Except String (List AlumnoRow × List CalifRow × List MatriculaRow)) :
    List RunLog × Except String Unit :=
  match ext with
  | .error e => ([failRunLogPrefect e], .error e)
  | .ok (al, ca, ma) =>
    let r := transformPrefect al ca ma
    ([okRunLogPrefect (al.length + ca.length + ma.length) r], .ok ())

/-! ### Helper lemmas -/

/-- Splitting a list length into the rows kept and the rows dropped by a
filter. -/
theorem length_filter_add_countP_not {α : Type} (p : α → Bool) (l : List α) :
    (l.filter p).length + l.countP (fun x => !(p x)) = l.length := by
  induction l with
  | nil => rfl
  | cons a t ih =>
    cases hp : p a <;>
      simp [List.filter_cons, List.countP_cons, hp, ← ih] <;> omega

/-- Keys produced by `dropDupAux` avoid the `seen` accumulator. -/
theorem dropDupAux_keys_not_seen (l : List AlumnoRow) :
    ∀ (seen : List (Option Key)) (k : Option Key),
      k ∈ (dropDupAux seen l).map (fun a => a.id_alumno) → k ∉ seen := by
  induction l with
  | nil => intro seen k hk; simp [dropDupAux] at hk
  | cons a t ih =>
    intro seen k hk
    by_cases hmem : a.id_alumno ∈ seen
    · rw [dropDupAux, if_pos hmem] at hk
      exact ih seen k hk
    · rw [dropDupAux, if_neg hmem] at hk
      simp only [List.map_cons, List.mem_cons] at hk
      rcases hk with hk | hk
      · exact hk ▸ hmem
      · intro hks
        exact ih _ k hk (List.mem_cons_of_mem _ hks)

/-- Deduplication leaves pairwise distinct keys. -/
theorem dropDupAux_keys_nodup (l : List AlumnoRow) :
    ∀ seen : List (Option Key),
      ((dropDupAux seen l).map (fun a => a.id_alumno)).Nodup := by
  induction l with
  | nil => intro seen; simp [dropDupAux]
  | cons a t ih =>
    intro seen
    by_cases hmem : a.id_alumno ∈ seen
    · rw [dropDupAux, if_pos hmem]; exact ih seen
    · rw [dropDupAux, if_neg hmem]
      simp only [List.map_cons, List.nodup_cons]
      refine ⟨fun hk => ?_, ih _⟩
      exact dropDupAux_keys_not_seen t _ _ hk (List.mem_cons_self _ _)

theorem dropDuplicatesAl_keys_nodup (l : List AlumnoRow) :
    ((dropDuplicatesAl l).map (fun a => a.id_alumno)).Nodup :=
  dropDupAux_keys_nodup l []

/-- The address-synthesis map does not touch the key column, so the cleaned
roster keeps pairwise distinct keys. -/
theorem cleanAlumnos_keys_nodup (l : List AlumnoRow) :
    ((cleanAlumnos l).map (fun a => a.id_alumno)).Nodup := by
  have h : (cleanAlumnos l).map (fun a => a.id_alumno)
      = (dropDuplicatesAl l).map (fun a => a.id_alumno) := by
    simp [cleanAlumnos, List.map_map]
  rw [h]
  exact dropDuplicatesAl_keys_nodup l

/-- Filtering preserves distinctness of the mapped keys. -/
theorem nodup_map_filter {α β : Type} (f : α → β) (p : α → Bool)
    (l : List α) (h : (l.map f).Nodup) : ((l.filter p).map f).Nodup :=
  List.Nodup.sublist (List.Sublist.map f (List.filter_sublist l)) h

/-- In a table whose keys are pairwise distinct, at most one row matches any
given key. -/
theorem length_filter_key_le_one {α : Type} (f : α → Option Key)
    (l : List α) (h : (l.map f).Nodup) (k : Option Key) :
    (l.filter (fun a => f a = k)).length ≤ 1 := by
  induction l with
  | nil => simp
  | cons a t ih =>
    simp only [List.map_cons, List.nodup_cons] at h
    by_cases hk : f a = k
    · rw [List.filter_cons, if_pos (by simpa using hk)]
      have ht : t.filter (fun x => f x = k) = [] := by
        rw [List.filter_eq_nil_iff]
        intro x hx
        simp only [decide_eq_true_eq]
        intro hfx
        refine h.1 ?_
        rw [hk, ← hfx]
        exact List.mem_map_of_mem f hx
      simp [ht]
    · rw [List.filter_cons, if_neg (by simpa using hk)]
      exact ih h.2

/-- A flat map whose pieces are singletons preserves length. -/
theorem length_flatMap_eq_length {α β : Type} (l : List α) (g : α → List β)
    (h : ∀ x ∈ l, (g x).length = 1) : (l.flatMap g).length = l.length := by
  induction l with
  | nil => rfl
  | cons a t ih =>
    rw [List.flatMap_cons, List.length_append, h a (List.mem_cons_self a t),
      ih (fun x hx => h x (List.mem_cons_of_mem a hx))]
    simp [Nat.add_comm]

/-- When at most one enrollment row matches, the second join step yields
exactly one row. -/
theorem length_joinMa (c : CalifRow) (a : Option AlumnoRow)
    (ma : List MatriculaRow)
    (h : (ma.filter (fun m => m.id_alumno = c.id_alumno)).length ≤ 1) :
    (joinMa c a ma).length = 1 := by
  unfold joinMa
  split
  · simp
  · rename_i hne'
    rw [List.length_map]
    have hne : ma.filter (fun m => m.id_alumno = c.id_alumno) ≠ [] := by
      simpa [List.isEmpty_iff] using hne'
    have h1 : 1 ≤ (ma.filter (fun m => m.id_alumno = c.id_alumno)).length :=
      List.length_pos.mpr hne
    omega

/-- When at most one roster row and at most one enrollment row match,
a grade row yields exactly one fact row. -/
theorem length_joinRow (c : CalifRow) (al : List AlumnoRow)
    (ma : List MatriculaRow)
    (hal : (al.filter (fun a => a.id_alumno = c.id_alumno)).length ≤ 1)
    (hma : (ma.filter (fun m => m.id_alumno = c.id_alumno)).length ≤ 1) :
    (joinRow c al ma).length = 1 := by
  unfold joinRow
  split
  · exact length_joinMa c none ma hma
  · rename_i hne'
    have hne : al.filter (fun a => a.id_alumno = c.id_alumno) ≠ [] := by
      simpa [List.isEmpty_iff] using hne'
    have h1 : 1 ≤ (al.filter (fun a => a.id_alumno = c.id_alumno)).length :=
      List.length_pos.mpr hne
    rw [length_flatMap_eq_length _ _
      (fun x _ => length_joinMa c (some x) ma hma)]
    omega

/-- The join chain neither drops nor duplicates grade rows as long as both
right-side tables have pairwise distinct keys. -/
theorem length_mergeRows (ca : List CalifRow) (al : List AlumnoRow)
    (ma : List MatriculaRow)
    (hal : (al.map (fun a => a.id_alumno)).Nodup)
    (hma : (ma.map (fun m => m.id_alumno)).Nodup) :
    (mergeRows ca al ma).length = ca.length := by
  unfold mergeRows
  exact length_flatMap_eq_length _ _ (fun c _ =>
    length_joinRow c al ma
      (length_filter_key_le_one _ al hal c.id_alumno)
      (length_filter_key_le_one _ ma hma c.id_alumno))

/-- Every output row of the second join step is built from its grade row. -/
theorem mem_joinMa {f : FactRow} {c : CalifRow} {a : Option AlumnoRow}
    {ma : List MatriculaRow} (h : f ∈ joinMa c a ma) :
    ∃ m : Option MatriculaRow, f = mkFact c a m := by
  unfold joinMa at h
  split at h
  · exact ⟨none, (List.mem_singleton.mp h).symm ▸ rfl⟩
  · obtain ⟨m, _, hm⟩ := List.mem_map.mp h
    exact ⟨some m, hm.symm⟩

/-- Every fact row generated by one grade row is `mkFact` of that grade
row. -/
theorem mem_joinRow {f : FactRow} {c : CalifRow} {al : List AlumnoRow}
    {ma : List MatriculaRow} (h : f ∈ joinRow c al ma) :
    ∃ (a : Option AlumnoRow) (m : Option MatriculaRow), f = mkFact c a m := by
  unfold joinRow at h
  split at h
  · obtain ⟨m, hm⟩ := mem_joinMa h
    exact ⟨none, m, hm⟩
  · obtain ⟨a, _, ha⟩ := List.mem_flatMap.mp h
    obtain ⟨m, hm⟩ := mem_joinMa ha
    exact ⟨some a, m, hm⟩

/-- Every fact row comes from some grade row of the left table. -/
theorem mem_mergeRows {f : FactRow} {ca : List CalifRow}
    {al : List AlumnoRow} {ma : List MatriculaRow}
    (h : f ∈ mergeRows ca al ma) :
    ∃ c ∈ ca, ∃ (a : Option AlumnoRow) (m : Option MatriculaRow),
      f = mkFact c a m := by
  obtain ⟨c, hc, hf⟩ := List.mem_flatMap.mp h
  exact ⟨c, hc, mem_joinRow hf⟩

/-- With an empty enrollment table the second join step is the identity row
with null enrollment columns. -/
theorem joinMa_nil (c : CalifRow) (a : Option AlumnoRow) :
    joinMa c a [] = [mkFact c a none] := rfl

/-- With an empty enrollment table, every generated fact row carries `none`
in the enrollment slot. -/
theorem mem_joinRow_ma_nil {f : FactRow} {c : CalifRow} {al : List AlumnoRow}
    (h : f ∈ joinRow c al []) :
    ∃ a : Option AlumnoRow, f = mkFact c a none := by
  unfold joinRow at h
  split at h
  · rw [joinMa_nil] at h
    exact ⟨none, List.mem_singleton.mp h⟩
  · obtain ⟨a, _, ha⟩ := List.mem_flatMap.mp h
    rw [joinMa_nil] at ha
    exact ⟨some a, List.mem_singleton.mp ha⟩

/-- With an empty roster, every fact row carries `none` in the roster
slot. -/
theorem mem_joinRow_al_nil {f : FactRow} {c : CalifRow}
    {ma : List MatriculaRow} (h : f ∈ joinRow c [] ma) :
    ∃ m : Option MatriculaRow, f = mkFact c none m := by
  unfold joinRow at h
  simp only [List.filter_nil, List.isEmpty_nil, if_true] at h
  exact mem_joinMa h

/-- Address synthesis never produces a null address: the synthesized branch
returns a string, and the untouched branch only fires on non-null
addresses. -/
theorem generar_correo_ne_none (r : AlumnoRow) : generar_correo r ≠ none := by
  unfold generar_correo
  split
  · simp
  · rename_i hcond
    cases hc : r.correo
    · exact absurd (Or.inl hc) hcond
    · simp

/-- After address synthesis, no roster row has a null address. -/
theorem countP_correo_none_cleanAlumnos (l : List AlumnoRow) :
    (cleanAlumnos l).countP (fun r => r.correo = none) = 0 := by
  rw [List.countP_eq_zero]
  intro a ha
  obtain ⟨r, _, hr⟩ := List.mem_map.mp ha
  simp only [decide_eq_true_eq]
  intro hnone
  exact generar_correo_ne_none r (by rw [← hr] at hnone; exact hnone)

/-- The clamped score is a one-decimal value inside `[0, 5]`. -/
theorem clamp_round1_bounds (x : ℚ) :
    ∃ k : ℤ, max 0 (min 5 (round1 x)) = (k : ℚ) / 10
      ∧ 0 ≤ max 0 (min 5 (round1 x)) ∧ max 0 (min 5 (round1 x)) ≤ 5 := by
  have hub : max 0 (min 5 (round1 x)) ≤ 5 :=
    max_le (by norm_num) (min_le_left _ _)
  have hlb : (0 : ℚ) ≤ max 0 (min 5 (round1 x)) := le_max_left _ _
  rcases le_total (round1 x) 0 with h0 | h0
  · refine ⟨0, ?_, hlb, hub⟩
    rw [min_eq_right (le_trans h0 (by norm_num)), max_eq_left h0]
    norm_num
  · rcases le_total (round1 x) 5 with h5 | h5
    · refine ⟨round (10 * x), ?_, hlb, hub⟩
      rw [min_eq_right h5, max_eq_right h0]
      rfl
    · refine ⟨50, ?_, hlb, hub⟩
      rw [min_eq_left h5, max_eq_right (by norm_num)]
      norm_num

/-- Booleanized null test for keys. -/
theorem not_isSome_eq_decide_none (o : Option Key) :
    (!o.isSome) = decide (o = none) := by
  cases o <;> rfl

/-- Rows dropped by the null-key filter are exactly the null-key rows. -/
theorem length_sub_filter_eq_countP_none {α : Type} (f : α → Option Key)
    (l : List α) :
    l.length - (l.filter (fun x => (f x).isSome)).length
      = l.countP (fun x => f x = none) := by
  have h := length_filter_add_countP_not (fun x => (f x).isSome) l
  have h2 : l.countP (fun x => !((f x).isSome))
      = l.countP (fun x => f x = none) := by
    simp only [not_isSome_eq_decide_none]
  omega

/-- Score normalization does not change the key column, so filtering the
normalized grade table by non-null key keeps as many rows as filtering the
raw one. -/
theorem length_validCa (ca : List CalifRow) :
    (validCa ca).length
      = (ca.filter (fun c => c.id_alumno.isSome)).length := by
  rw [validCa, cleanCalifs, List.filter_map, List.length_map]
  rfl

/-- Every non-null score of the fact table is a clamped normalized score,
hence lies in `[0, 5]`. -/
theorem fact_nota_bounds {v : ℚ} {al : List AlumnoRow} {ca : List CalifRow}
    {ma : List MatriculaRow}
    (hv : v ∈ (factsPrefect al ca ma).filterMap (fun f => f.nota)) :
    0 ≤ v ∧ v ≤ 5 := by
  obtain ⟨f, hf, hnota⟩ := List.mem_filterMap.mp hv
  obtain ⟨c, hc, a, m, rfl⟩ := mem_mergeRows hf
  have hcmem : c ∈ cleanCalifs ca := (List.mem_filter.mp hc).1
  obtain ⟨c0, _, rfl⟩ := List.mem_map.mp hcmem
  have hnota' : normalizar_nota c0.nota = some v := hnota
  cases hq : c0.nota with
  | none => rw [hq] at hnota'; exact Option.noConfusion hnota'
  | some x =>
    rw [hq] at hnota'
    have hvx : max 0 (min 5 (round1 x)) = v :=
      Option.some.inj hnota'
    obtain ⟨_, _, h0, h5⟩ := clamp_round1_bounds x
    exact ⟨hvx ▸ h0, hvx ▸ h5⟩

/-- Truncation yields at most `n` characters. -/
theorem strTake_length_le (s : String) (n : Nat) :
    (strTake s n).length ≤ n := by
  show (s.data.take n).length ≤ n
  rw [List.length_take]
  exact min_le_left _ _

/-- Truncating a concatenation with a non-empty prefix to a positive length
leaves a non-empty string. -/
theorem strTake_append_length_pos (s t : String) (n : Nat)
    (h1 : 0 < s.length) (h2 : 0 < n) : 0 < (strTake (s ++ t) n).length := by
  show 0 < ((s ++ t).data.take n).length
  have hd : (s ++ t).data = s.data ++ t.data := rfl
  rw [List.length_take, hd, List.length_append]
  have h1' : 0 < s.data.length := h1
  exact lt_min h2 (by omega)

/-! ### Claim theorems -/

/-- C3: the transformation stage is a deterministic function of its three
input tables alone.  The only nondeterminism in either variant is the
date-seeded failure injection of `etl_simple.py` (modelled by the `inject`
flag); it can abort a run but never changes the computed metrics, so any two
runs on identical tables that both produce metrics produce identical
`valid_rows`, `total_alumnos_unicos`, `total_materias_diferentes` and
`promedio_notas_general`.  The Prefect variant's `transform` is modelled by
the pure function `transformPrefect`, so its determinism is definitional. -/
theorem C3_transform_deterministic (b1 b2 : Bool) (al : List AlumnoRow)
    (ca : List CalifRow) (ma : List MatriculaRow) (r1 r2 : TransformResult)
    (h1 : transformSimple b1 al ca ma = some r1)
    (h2 : transformSimple b2 al ca ma = some r2) :
    r1.registros_validos = r2.registros_validos ∧
    r1.total_alumnos_unicos = r2.total_alumnos_unicos ∧
    r1.total_materias_diferentes = r2.total_materias_diferentes ∧
    r1.promedio_notas_general = r2.promedio_notas_general := by
  have e1 : r1 = r2 := by
    cases b1 with
    | true => simp [transformSimple] at h1
    | false =>
      cases b2 with
      | true => simp [transformSimple] at h2
      | false =>
        rw [transformSimple] at h1 h2
        simp only [Bool.false_eq_true, if_false] at h1 h2
        exact (Option.some.inj h1).symm.trans (Option.some.inj h2)
  rw [e1]
  exact ⟨rfl, rfl, rfl, rfl⟩

/-- Witness for C3 at a concrete input: two injected-failure-free runs on
the empty tables agree (and produce `emptyResult`). -/
theorem C3_transform_deterministic_witness :
    transformSimple false [] [] [] = some emptyResult ∧
    (emptyResult.registros_validos = emptyResult.registros_validos ∧
     emptyResult.total_alumnos_unicos = emptyResult.total_alumnos_unicos ∧
     emptyResult.total_materias_diferentes
       = emptyResult.total_materias_diferentes ∧
     emptyResult.promedio_notas_general
       = emptyResult.promedio_notas_general) :=
  ⟨rfl, C3_transform_deterministic false false [] [] [] emptyResult
    emptyResult rfl rfl⟩

/-- C5: score normalization is value-wise.  A null score stays null; a
non-null score is mapped to a one-decimal value inside `[0, 5]`; the score
is counted out of range exactly when `s < 0` or `s > 5`; the
`calificaciones_fuera_rango` counter of a run is exactly the count of such
scores; and no grade row is dropped by normalization. -/
theorem C5_score_normalization (x : ℚ) (al : List AlumnoRow)
    (ca : List CalifRow) (ma : List MatriculaRow) :
    normalizar_nota none = none ∧
    (∃ k : ℤ, normalizar_nota (some x) = some ((k : ℚ) / 10)
      ∧ 0 ≤ (k : ℚ) / 10 ∧ (k : ℚ) / 10 ≤ 5) ∧
    (fueraRango (some x) = true ↔ (x < 0 ∨ 5 < x)) ∧
    (transformPrefect al ca ma).calificaciones_fuera_rango
      = ca.countP (fun c => fueraRango c.nota) ∧
    (cleanCalifs ca).length = ca.length := by
  refine ⟨rfl, ?_, by simp [fueraRango], rfl, by simp [cleanCalifs]⟩
  obtain ⟨k, hk, h0, h5⟩ := clamp_round1_bounds x
  refine ⟨k, ?_, hk ▸ h0, hk ▸ h5⟩
  simp only [normalizar_nota]
  exact congrArg some hk

/-- C8: the Cleaner never overwrites a non-empty address, and replaces a
null/empty address by the deterministic synthesized value
`cleaned(nombre) ++ "." ++ cleaned(apellido) ++ "@colegio.edu"`, where the
cleaning lowercases, strips whitespace and removes the acute accents; in
particular `José`/`Pérez` yields `jose.perez@colegio.edu`. -/
theorem C8_address_synthesis (row : AlumnoRow) :
    (∀ s : String, row.correo = some s → ¬ s = "" →
      generar_correo row = some s) ∧
    (row.correo = none ∨ row.correo = some "" →
      generar_correo row = some (limpiar (pyStr row.nombre) ++ "."
        ++ limpiar (pyStr row.apellido) ++ "@colegio.edu")
      ∧ (generar_correo row).isSome = true) ∧
    limpiar "José" = "jose" ∧ limpiar "Pérez" = "perez" ∧
    generar_correo
      { id_alumno := some 1, nombre := some "José",
        apellido := some "Pérez", grado := none, correo := none,
        fecha_nacimiento := none } = some "jose.perez@colegio.edu" := by
  refine ⟨?_, ?_, by decide, by decide, by decide⟩
  · intro s hs hne
    unfold generar_correo
    rw [if_neg]
    · exact hs
    · rintro (h | h) <;> rw [hs] at h
      · exact Option.noConfusion h
      · exact hne (Option.some.inj h)
  · intro h
    unfold generar_correo
    rw [if_pos h]
    exact ⟨rfl, rfl⟩

/-- Witness for C8 at concrete inputs: a row with a non-empty address keeps
it. -/
theorem C8_address_synthesis_witness :
    generar_correo
      { id_alumno := some 1, nombre := some "José",
        apellido := some "Pérez", grado := none, correo := some "a@b.edu",
        fecha_nacimiento := none } = some "a@b.edu" :=
  (C8_address_synthesis _).1 "a@b.edu" rfl (by decide)

/-- C10 (implicit): when the address is missing and the given or family
name is itself null, the synthesized address renders the missing names as
the literal string `nan` — `str(float('nan'))` — producing the non-null
address `nan.nan@colegio.edu` rather than an error or a null. -/
theorem C10_missing_names_nan (row : AlumnoRow)
    (hc : row.correo = none ∨ row.correo = some "")
    (hn : row.nombre = none) (ha : row.apellido = none) :
    generar_correo row = some "nan.nan@colegio.edu"
      ∧ generar_correo row ≠ none := by
  unfold generar_correo
  rw [if_pos hc, hn, ha]
  exact ⟨by decide, by decide⟩

/-- Witness for C10 at a concrete all-null-name roster row. -/
theorem C10_missing_names_nan_witness :
    generar_correo
      { id_alumno := some 7, nombre := none, apellido := none,
        grado := none, correo := none, fecha_nacimiento := none }
      = some "nan.nan@colegio.edu"
    ∧ generar_correo
      { id_alumno := some 7, nombre := none, apellido := none,
        grado := none, correo := none, fecha_nacimiento := none } ≠ none :=
  C10_missing_names_nan _ (Or.inl rfl) rfl rfl

/-- C1 counterexample: with one retained grade row (key 1) and an
enrollment table holding two rows for key 1, the pandas left-join chain
duplicates the grade row — `registros_validos` is 2 while only one grade row
was retained after key filtering, so the claimed equality (and the claimed
"never duplicates, for every combination of input tables including
enrollment tables containing multiple rows for the same key") fails. -/
theorem C1_counterexample :
    (transformPrefect []
      [{ id_alumno := some 1, asignatura := some "Math", nota := none,
         periodo := none }]
      [{ id_alumno := some 1, anio := some "2024", estado := none,
         jornada := none },
       { id_alumno := some 1, anio := some "2025", estado := none,
         jornada := none }]).registros_validos = 2 ∧
    (validCa
      [{ id_alumno := some 1, asignatura := some "Math", nota := none,
         periodo := none }]).length = 1 := by
  decide

/-- C1 amended: the roster side of the join chain never drops or duplicates
a retained grade row (the roster is deduplicated before joining), and
whenever the key-filtered enrollment table has at most one row per key,
`registros_validos` equals the fact-table row count, which equals the number
of grade rows retained after key filtering. -/
theorem C1_join_preserves_grades (al : List AlumnoRow) (ca : List CalifRow)
    (ma : List MatriculaRow)
    (h : ((validMa ma).map (fun m => m.id_alumno)).Nodup) :
    (transformPrefect al ca ma).registros_validos
      = (ca.filter (fun c => c.id_alumno.isSome)).length ∧
    (transformPrefect al ca ma).facts.length
      = (ca.filter (fun c => c.id_alumno.isSome)).length := by
  have hal : ((validAl al).map (fun a => a.id_alumno)).Nodup :=
    nodup_map_filter (fun a => a.id_alumno) (fun a => a.id_alumno.isSome)
      (cleanAlumnos al) (cleanAlumnos_keys_nodup al)
  have hlen := length_mergeRows (validCa ca) (validAl al) (validMa ma) hal h
  have hfin : (factsPrefect al ca ma).length
      = (ca.filter (fun c => c.id_alumno.isSome)).length := by
    rw [factsPrefect, hlen, length_validCa]
  exact ⟨hfin, hfin⟩

/-- Witness for C1 at a concrete input with a single-row enrollment
table. -/
theorem C1_join_preserves_grades_witness :
    (transformPrefect []
      [{ id_alumno := some 1, asignatura := some "Math", nota := none,
         periodo := none }]
      [{ id_alumno := some 1, anio := some "2024", estado := none,
         jornada := none }]).registros_validos
      = ([{ id_alumno := some 1, asignatura := some "Math", nota := none,
            periodo := none }].filter
          (fun c => CalifRow.id_alumno c |>.isSome)).length :=
  (C1_join_preserves_grades []
    [{ id_alumno := some 1, asignatura := some "Math", nota := none,
       periodo := none }]
    [{ id_alumno := some 1, anio := some "2024", estado := none,
       jornada := none }] (by decide)).1

/-- C2 counterexample: in the simple variant a grade row whose key is null
is not excluded — it survives both left joins and appears in the fact table
(with a null key), while `registros_descartados` is hard-coded to 0 instead
of the claimed pre-clean minus post-key-filter difference (here 1). -/
theorem C2_counterexample :
    (transformSimple false []
      [{ id_alumno := none, asignatura := some "Math", nota := some 3,
         periodo := none }] []).map
      (fun r => (r.registros_descartados,
        r.facts.map (fun f => f.id_alumno)))
      = some (0, [none]) := by
  decide

/-- C2 amended (Prefect variant): every fact row has a non-null key — rows
with a null key after reconciliation are excluded from all joins and absent
from the fact table — and `registros_descartados` equals the sum over the
three source tables of their null-key row counts, where the roster is
counted after deduplication (not pre-clean).  The simple variant performs no
key filtering and always reports `registros_descartados = 0`. -/
theorem C2_key_filtering (al : List AlumnoRow) (ca : List CalifRow)
    (ma : List MatriculaRow) :
    (∀ f ∈ (transformPrefect al ca ma).facts, f.id_alumno ≠ none) ∧
    (transformPrefect al ca ma).registros_descartados
      = (cleanAlumnos al).countP (fun r => r.id_alumno = none)
        + ca.countP (fun c => c.id_alumno = none)
        + ma.countP (fun m => m.id_alumno = none) := by
  constructor
  · intro f hf
    obtain ⟨c, hc, a, m, rfl⟩ := mem_mergeRows hf
    have hsome : c.id_alumno.isSome = true := by
      simpa using (List.mem_filter.mp hc).2
    show c.id_alumno ≠ none
    intro hnone
    rw [hnone] at hsome
    exact Bool.noConfusion hsome
  · show (cleanAlumnos al).length - (validAl al).length
        + (ca.length - (validCa ca).length)
        + (ma.length - (validMa ma).length) = _
    have h1 := length_sub_filter_eq_countP_none
      (fun a : AlumnoRow => a.id_alumno) (cleanAlumnos al)
    have h2 := length_sub_filter_eq_countP_none
      (fun c : CalifRow => c.id_alumno) ca
    have h3 := length_sub_filter_eq_countP_none
      (fun m : MatriculaRow => m.id_alumno) ma
    have hca : ca.length - (validCa ca).length
        = ca.countP (fun c => c.id_alumno = none) := by
      rw [length_validCa]; exact h2
    rw [hca]
    have hal : (cleanAlumnos al).length - (validAl al).length
        = (cleanAlumnos al).countP (fun r => r.id_alumno = none) := h1
    have hma : ma.length - (validMa ma).length
        = ma.countP (fun m => m.id_alumno = none) := h3
    rw [hal, hma]

/-- Witness for C2 at a concrete input: the single fact row of a one-grade
run has a non-null key, and the discarded count matches the null-key
counts. -/
theorem C2_key_filtering_witness :
    (mkFact
      { id_alumno := some 1, asignatura := some "Math", nota := none,
        periodo := none } none none).id_alumno ≠ none ∧
    (transformPrefect []
      [{ id_alumno := some 1, asignatura := some "Math", nota := none,
         periodo := none },
       { id_alumno := none, asignatura := some "Art", nota := none,
         periodo := none }] []).registros_descartados = 1 := by
  refine ⟨?_, ?_⟩
  · exact (C2_key_filtering []
      [{ id_alumno := some 1, asignatura := some "Math", nota := none,
         periodo := none }] []).1 _ (by decide)
  · have h := (C2_key_filtering []
      [{ id_alumno := some 1, asignatura := some "Math", nota := none,
         periodo := none },
       { id_alumno := none, asignatura := some "Art", nota := none,
         periodo := none }] []).2
    rw [h]
    decide

/-- C4: a join never raises merely because a right-side table is empty
(`transformPrefect` is a total function).  With an empty enrollment table
every retained grade row yields exactly one fact row with all enrollment
columns null and `alumnos_con_matricula = 0`; with an empty roster every
fact row has all roster columns null.  The spec's example run (roster José /
Pérez with null address, one grade 7.8, enrollment `[]`) yields exactly the
expected single fact row: score clamped to 5.0, synthesized address, null
enrollment fields, one out-of-range count. -/
theorem C4_empty_right_tables (al : List AlumnoRow) (ca : List CalifRow)
    (ma : List MatriculaRow) :
    ((transformPrefect al ca []).registros_validos
        = (ca.filter (fun c => c.id_alumno.isSome)).length ∧
      (∀ f ∈ (transformPrefect al ca []).facts,
        f.anio = none ∧ f.estado = none ∧ f.jornada = none) ∧
      (transformPrefect al ca []).alumnos_con_matricula = 0) ∧
    (∀ f ∈ (transformPrefect [] ca ma).facts,
      f.nombre = none ∧ f.apellido = none ∧ f.grado = none ∧
      f.correo = none ∧ f.fecha_nacimiento = none) ∧
    (transformPrefect
      [{ id_alumno := some 1, nombre := some "José",
         apellido := some "Pérez", grado := some "5A", correo := none,
         fecha_nacimiento := none }]
      [{ id_alumno := some 1, asignatura := some "Math",
         nota := some (39 / 5 : ℚ), periodo := some "P1" }] []).facts
      = [{ id_alumno := some 1, nombre := some "José",
           apellido := some "Pérez", grado := some "5A",
           correo := some "jose.perez@colegio.edu",
           fecha_nacimiento := none, asignatura := some "Math",
           nota := some 5, periodo := some "P1", anio := none,
           estado := none, jornada := none }] ∧
    (transformPrefect
      [{ id_alumno := some 1, nombre := some "José",
         apellido := some "Pérez", grado := some "5A", correo := none,
         fecha_nacimiento := none }]
      [{ id_alumno := some 1, asignatura := some "Math",
         nota := some (39 / 5 : ℚ), periodo := some "P1" }]
      []).calificaciones_fuera_rango = 1 := by
  have hmafields : ∀ f ∈ (transformPrefect al ca []).facts,
      f.anio = none ∧ f.estado = none ∧ f.jornada = none := by
    intro f hf
    have hf' : f ∈ mergeRows (validCa ca) (validAl al) [] := hf
    obtain ⟨c, _, hrow⟩ := List.mem_flatMap.mp hf'
    obtain ⟨a, rfl⟩ := mem_joinRow_ma_nil hrow
    exact ⟨rfl, rfl, rfl⟩
  have h78 : round1 (39 / 5 : ℚ) = 39 / 5 := by
    rw [round1]
    norm_num [round_eq]
  have hnota : normalizar_nota (some (39 / 5 : ℚ)) = some 5 := by
    simp only [normalizar_nota, h78]
    rw [min_eq_left (by norm_num), max_eq_right (by norm_num)]
  have hclean : cleanCalifs
      [{ id_alumno := some 1, asignatura := some "Math",
         nota := some (39 / 5 : ℚ), periodo := some "P1" }]
      = [{ id_alumno := some 1, asignatura := some "Math",
           nota := some 5, periodo := some "P1" }] := by
    simp [cleanCalifs, cleanCalif, hnota]
  have hfr : fueraRango (some (39 / 5 : ℚ)) = true := by
    simp only [fueraRango, decide_eq_true_eq]
    norm_num
  refine ⟨⟨?_, hmafields, ?_⟩, ?_, ?_, ?_⟩
  · have hal : ((validAl al).map (fun a => a.id_alumno)).Nodup :=
      nodup_map_filter (fun a => a.id_alumno) (fun a => a.id_alumno.isSome)
        (cleanAlumnos al) (cleanAlumnos_keys_nodup al)
    have hlen := length_mergeRows (validCa ca) (validAl al) (validMa [])
      hal (by simp [validMa])
    show (factsPrefect al ca []).length = _
    rw [factsPrefect, hlen, length_validCa]
  · have hfilter : (factsPrefect al ca []).filter
        (fun f => f.anio.isSome) = [] := by
      rw [List.filter_eq_nil_iff]
      intro f hf
      have hnone := (hmafields f hf).1
      simp [hnone]
    show alumnosConMatricula (factsPrefect al ca []) = 0
    rw [alumnosConMatricula, hfilter]
    rfl
  · intro f hf
    have hf' : f ∈ mergeRows (validCa ca) (validAl []) (validMa ma) := hf
    have hnil : validAl [] = [] := by decide
    rw [hnil] at hf'
    obtain ⟨c, _, hrow⟩ := List.mem_flatMap.mp hf'
    obtain ⟨m, rfl⟩ := mem_joinRow_al_nil hrow
    exact ⟨rfl, rfl, rfl, rfl, rfl⟩
  · show mergeRows _ _ _ = _
    rw [validCa, hclean]
    decide
  · show List.countP _ _ = 1
    simp [List.countP_cons, hfr]

/-- Witness for C4 at the spec's example input: one fact row, zero
enrolled-student count. -/
theorem C4_empty_right_tables_witness :
    (transformPrefect
      [{ id_alumno := some 1, nombre := some "José",
         apellido := some "Pérez", grado := some "5A", correo := none,
         fecha_nacimiento := none }]
      [{ id_alumno := some 1, asignatura := some "Math",
         nota := some (39 / 5 : ℚ), periodo := some "P1" }]
      []).registros_validos = 1 ∧
    (transformPrefect
      [{ id_alumno := some 1, nombre := some "José",
         apellido := some "Pérez", grado := some "5A", correo := none,
         fecha_nacimiento := none }]
      [{ id_alumno := some 1, asignatura := some "Math",
         nota := some (39 / 5 : ℚ), periodo := some "P1" }]
      []).alumnos_con_matricula = 0 :=
  ⟨((C4_empty_right_tables
      [{ id_alumno := some 1, nombre := some "José",
         apellido := some "Pérez", grado := some "5A", correo := none,
         fecha_nacimiento := none }]
      [{ id_alumno := some 1, asignatura := some "Math",
         nota := some (39 / 5 : ℚ), periodo := some "P1" }] []).1.1).trans
      (by decide),
   (C4_empty_right_tables
      [{ id_alumno := some 1, nombre := some "José",
         apellido := some "Pérez", grado := some "5A", correo := none,
         fecha_nacimiento := none }]
      [{ id_alumno := some 1, asignatura := some "Math",
         nota := some (39 / 5 : ℚ), periodo := some "P1" }] []).1.2.2⟩

/-- C6 counterexample: a run whose fact table is non-empty but whose every
score is null.  `df_final['nota'].mean()` is then pandas NaN (modelled
`none`), not the claimed 0: the zero fallback in the code only covers the
case where the `nota` column is absent, not the all-null case. -/
theorem C6_counterexample :
    (transformPrefect []
      [{ id_alumno := some 1, asignatura := some "Math", nota := none,
         periodo := none }] []).facts.length = 1 ∧
    (transformPrefect []
      [{ id_alumno := some 1, asignatura := some "Math", nota := none,
         periodo := none }] []).facts.map (fun f => f.nota) = [none] ∧
    (transformPrefect []
      [{ id_alumno := some 1, asignatura := some "Math", nota := none,
         periodo := none }] []).promedio_notas_general = none ∧
    (transformPrefect []
      [{ id_alumno := some 1, asignatura := some "Math", nota := none,
         periodo := none }] []).promedio_notas_general ≠ some 0 := by
  refine ⟨rfl, rfl, rfl, ?_⟩
  show (none : Option ℚ) ≠ some 0
  simp

/-- C6 amended: `promedio_notas_general` equals the arithmetic mean of the
non-null scores of the final fact table whenever at least one non-null score
exists (and that mean lies in `[0, 5]`); when the score column exists but
every value is null, the recorded value is NaN (modelled `none`), not 0.
The zero fallback applies only when the fact table has no score column at
all, a case that cannot be reached through `transform` (which would already
have raised at `df_ca['nota']`). -/
theorem C6_mean_nonnull_scores (al : List AlumnoRow) (ca : List CalifRow)
    (ma : List MatriculaRow) :
    ((transformPrefect al ca ma).facts.filterMap (fun f => f.nota) = [] →
      (transformPrefect al ca ma).promedio_notas_general = none) ∧
    ((transformPrefect al ca ma).facts.filterMap (fun f => f.nota) ≠ [] →
      ∃ q : ℚ, (transformPrefect al ca ma).promedio_notas_general = some q
        ∧ q = ((transformPrefect al ca ma).facts.filterMap
            (fun f => f.nota)).sum
          / (((transformPrefect al ca ma).facts.filterMap
            (fun f => f.nota)).length : ℚ)
        ∧ 0 ≤ q ∧ q ≤ 5) := by
  constructor
  · intro hvs
    have hvs' : (factsPrefect al ca ma).filterMap (fun f => f.nota) = [] :=
      hvs
    show promedioNotas (factsPrefect al ca ma) = none
    rw [promedioNotas, hvs']
    rfl
  · intro hvs
    have hvs' : (factsPrefect al ca ma).filterMap (fun f => f.nota) ≠ [] :=
      hvs
    have hv : ∀ v ∈ (factsPrefect al ca ma).filterMap (fun f => f.nota),
        0 ≤ v ∧ v ≤ 5 := fun v hmem => fact_nota_bounds hmem
    have hlenpos :
        0 < (((factsPrefect al ca ma).filterMap (fun f => f.nota)).length : ℚ) := by
      have hp : 0 < ((factsPrefect al ca ma).filterMap
          (fun f => f.nota)).length := List.length_pos.mpr hvs'
      exact_mod_cast hp
    have hsum0 : 0 ≤ ((factsPrefect al ca ma).filterMap
        (fun f => f.nota)).sum :=
      List.sum_nonneg (fun x hx => (hv x hx).1)
    have hsum5 : ((factsPrefect al ca ma).filterMap (fun f => f.nota)).sum
        ≤ (((factsPrefect al ca ma).filterMap
            (fun f => f.nota)).length : ℚ) * 5 := by
      have h := List.sum_le_card_nsmul
        ((factsPrefect al ca ma).filterMap (fun f => f.nota)) 5
        (fun x hx => (hv x hx).2)
      simpa [nsmul_eq_mul] using h
    refine ⟨((factsPrefect al ca ma).filterMap (fun f => f.nota)).sum
      / (((factsPrefect al ca ma).filterMap (fun f => f.nota)).length : ℚ),
      ?_, rfl, div_nonneg hsum0 (le_of_lt hlenpos), ?_⟩
    · show promedioNotas (factsPrefect al ca ma) = _
      rw [promedioNotas, if_neg]
      simpa [List.isEmpty_iff] using hvs'
    · rw [div_le_iff₀ hlenpos]
      linarith

/-- Witness for C6 at a concrete run with one non-null score. -/
theorem C6_mean_nonnull_scores_witness :
    (transformPrefect []
      [{ id_alumno := some 1, asignatura := some "Math",
         nota := some (4 : ℚ), periodo := none }] []).facts.filterMap
      (fun f => f.nota) ≠ [] ∧
    (∃ q : ℚ, (transformPrefect []
      [{ id_alumno := some 1, asignatura := some "Math",
         nota := some (4 : ℚ), periodo := none }] []).promedio_notas_general
        = some q
      ∧ q = ((transformPrefect []
          [{ id_alumno := some 1, asignatura := some "Math",
             nota := some (4 : ℚ), periodo := none }] []).facts.filterMap
          (fun f => f.nota)).sum
        / (((transformPrefect []
          [{ id_alumno := some 1, asignatura := some "Math",
             nota := some (4 : ℚ), periodo := none }] []).facts.filterMap
          (fun f => f.nota)).length : ℚ)
      ∧ 0 ≤ q ∧ q ≤ 5) := by
  have hne : (transformPrefect []
      [{ id_alumno := some 1, asignatura := some "Math",
         nota := some (4 : ℚ), periodo := none }] []).facts.filterMap
      (fun f => f.nota) ≠ [] := by
    show [max 0 (min 5 (round1 4))] ≠ []
    exact List.cons_ne_nil _ _
  exact ⟨hne, (C6_mean_nonnull_scores []
    [{ id_alumno := some 1, asignatura := some "Math",
       nota := some (4 : ℚ), periodo := none }] []).2 hne⟩

/-- C7 counterexample: in the simple variant an unrecoverable stage error
does not propagate to the external caller — `main` catches every exception
and returns `False` (exit code handling at the call site), so the claimed
"original error still propagates" fails there, even though the FAIL audit
row itself is written as claimed. -/
theorem C7_counterexample :
    (mainSimple (Except.error "boom") false).2 = false ∧
    (mainSimple (Except.error "boom") false).1
      = [failRunLogSimple "boom"] ∧
    (failRunLogSimple "boom").mensaje = "Error: boom" := by
  decide

/-- C7 amended: on a source-stage failure, each variant records exactly one
FAIL audit row with every metric zero and a message truncated to at most 500
characters.  In the simple variant the message is `"Error: " + str(e)`
(hence non-empty) but the error is swallowed — `main` returns `False`
instead of re-raising; in the Prefect variant the original error is
re-raised (`finally: raise`) but the recorded message is the bare
`str(e)`, which may be empty. -/
theorem C7_fail_audit_row (e : String) (inject : Bool) :
    ((mainSimple (Except.error e) inject).1 = [failRunLogSimple e] ∧
     (mainSimple (Except.error e) inject).2 = false ∧
     (failRunLogSimple e).estado = "FAIL" ∧
     (failRunLogSimple e).registros_leidos = 0 ∧
     (failRunLogSimple e).registros_validos = 0 ∧
     (failRunLogSimple e).registros_descartados = 0 ∧
     (failRunLogSimple e).alumnos_con_matricula = 0 ∧
     (failRunLogSimple e).total_alumnos_unicos = 0 ∧
     (failRunLogSimple e).total_materias_diferentes = 0 ∧
     (failRunLogSimple e).correos_generados = 0 ∧
     0 < (failRunLogSimple e).mensaje.length ∧
     (failRunLogSimple e).mensaje.length ≤ 500) ∧
    ((etlFlowPrefect (Except.error e)).1 = [failRunLogPrefect e] ∧
     (etlFlowPrefect (Except.error e)).2 = Except.error e ∧
     (failRunLogPrefect e).estado = "FAIL" ∧
     (failRunLogPrefect e).registros_validos = 0 ∧
     (failRunLogPrefect e).mensaje.length ≤ 500) := by
  refine ⟨⟨rfl, rfl, rfl, rfl, rfl, rfl, rfl, rfl, rfl, rfl, ?_, ?_⟩,
    rfl, rfl, rfl, rfl, ?_⟩
  · exact strTake_append_length_pos "Error: " e 500 (by decide) (by decide)
  · exact strTake_length_le ("Error: " ++ e) 500
  · exact strTake_length_le e 500

/-- C9 counterexample: a roster row whose address is the empty string is
synthesized (the fact table shows the synthesized address), yet
`correos_generados` is 0 — the counter is the difference of the NaN counts
before and after the `apply`, and `''` is not NaN, so empty-string
synthesis is never counted. -/
theorem C9_counterexample :
    (transformPrefect
      [{ id_alumno := some 1, nombre := some "José",
         apellido := some "Pérez", grado := none, correo := some "",
         fecha_nacimiento := none }]
      [{ id_alumno := some 1, asignatura := some "Math", nota := none,
         periodo := none }] []).correos_generados = 0 ∧
    (transformPrefect
      [{ id_alumno := some 1, nombre := some "José",
         apellido := some "Pérez", grado := none, correo := some "",
         fecha_nacimiento := none }]
      [{ id_alumno := some 1, asignatura := some "Math", nota := none,
         periodo := none }] []).facts.map (fun f => f.correo)
      = [some "jose.perez@colegio.edu"] := by
  decide

/-- C9 amended: in both variants `correos_generados` equals the number of
deduplicated roster rows whose address was null (NaN) before synthesis;
rows whose address was the empty string are synthesized but not counted. -/
theorem C9_correos_generados_null_only (al : List AlumnoRow)
    (ca : List CalifRow) (ma : List MatriculaRow) :
    (transformPrefect al ca ma).correos_generados
      = (dropDuplicatesAl al).countP (fun r => r.correo = none) ∧
    (transformSimple false al ca ma).map (fun r => r.correos_generados)
      = some ((dropDuplicatesAl al).countP (fun r => r.correo = none)) := by
  have hc : correosGenerados al
      = (dropDuplicatesAl al).countP (fun r => r.correo = none) := by
    rw [correosGenerados, countP_correo_none_cleanAlumnos]
    omega
  refine ⟨hc, ?_⟩
  simp only [transformSimple, Bool.false_eq_true, if_false, Option.map_some]
  exact congrArg some hc

end EtlLab2
